import Mathlib

/-!
# Verification of the runtime navigation pipeline (`src/main.rs`)

A shallow embedding of the navigation core of the repository: the collider
extractor (`read_colliders`), the per-frame path planner (`navigate`) and the
navigation-mesh debug visualizer (`draw_nav_mesh`), together with proofs of the
spec's testable properties about them.

Modelling conventions:
* Bevy entities are natural numbers; asset handles are natural numbers.
* `f32` world positions only flow through the code (the single arithmetic
  operation is `*vertex + Vec3::Y`), so coordinates are embedded as exact
  integers; the literals `0.` and `5.` that the source passes to the planner
  become the integers `0` and `5`.
* External collaborators (the physics engine's `Collider::from_bevy_mesh`, the
  navigation library's `find_path` / `perform_string_pulling_on_path`, the
  asset store `Assets<Mesh>`) are function parameters of the embedded systems.
* A Rust `.unwrap()` on `None`/`Err` is a process-aborting panic.  Bevy applies
  a system's queued `Commands` only after the system returns, so a panicking
  system mutates nothing; the embedding therefore gives each system the type
  `Except Panic α`: `.error` is a panic (and no commands are applied),
  `.ok cmds` is normal completion with `cmds` applied afterwards.
* `RwLock::read()` acquisition is modelled as a single fallible attempt per
  frame (`Option`-valued input): `none` is a failed acquisition, and the
  embedded reader makes exactly one attempt with no loop, retry or timeout.
-/

namespace Nav

/-- Entity identifier of the ECS world. -/
abbrev Entity := Nat

/-- Handle into the `Assets<Mesh>` store (`Handle<Mesh>` in the source). -/
abbrev MeshHandle := Nat

/-- An exact-coordinate stand-in for `bevy::Vec3`. -/
structure Vec3 where
  x : Int
  y : Int
  z : Int
deriving DecidableEq, Repr

/-- The constant `Vec3::Y`, the unit vector used for the vertex markers. -/
def Vec3.unitY : Vec3 := ⟨0, 1, 0⟩

/-- Componentwise addition, the only `Vec3` arithmetic the source performs. -/
def Vec3.add (a b : Vec3) : Vec3 := ⟨a.x + b.x, a.y + b.y, a.z + b.z⟩

/-- A debug line segment handed to `DebugLines` (`lines.line` /
`lines.line_colored`; the constant duration `0.` and the constant colour are
not part of the segment data the claims speak about). -/
abbrev Line := Vec3 × Vec3

/-- Lower-casing of a name, character by character (the character-list view of
`String.toLower`; it lower-cases ASCII exactly as Rust's `to_lowercase` does
on the ASCII names involved). -/
def lowerChars (s : String) : List Char := s.data.map Char.toLower

/-- Translation of `name.to_lowercase().contains("collider")` from
`read_colliders`: case-insensitive substring test. -/
def nameMatches (name : String) : Bool :=
  decide (("collider".data) <:+: lowerChars name)

/-- The ways the navigation core can panic: each constructor is one `.unwrap()`
(or slice index) in `src/main.rs`.  A panic aborts the process; no queued
scene mutation is applied. -/
inductive Panic where
  /-- Panic of `colliders.first().unwrap()` on an empty list (main.rs:134). -/
  | emptyColliders : Panic
  /-- Panic of `meshes.get(collider_mesh_handle).unwrap()` on a missing asset
  (main.rs:135). -/
  | meshNotLoaded : Panic
  /-- Panic of `Collider::from_bevy_mesh(..).unwrap()` on a failed build
  (main.rs:139). -/
  | colliderBuildFailed : Panic
  /-- Panic of `camera_transform.iter().next().unwrap()` with no camera entity
  (main.rs:156). -/
  | cameraMissing : Panic
  /-- Panic of `tile.vertices[idx]` with `idx` out of range (main.rs:186-187). -/
  | indexOutOfBounds : Panic
deriving DecidableEq, Repr

/-- Abstract triangle-mesh collider produced by the physics engine; the mesh
handle it was built from is recorded so that claims can speak about the
source mesh. -/
structure Collider where
  sourceMesh : MeshHandle
deriving DecidableEq, Repr

/-- A scene mutation queued through `Commands` by `read_colliders`. -/
inductive Command where
  /-- Queued `commands.entity(e).despawn_recursive()` (main.rs:136). -/
  | despawnRecursive (e : Entity) : Command
  /-- Queued `commands.entity(e).insert((rapier_collider, NavMeshAffector::default()))`
  (main.rs:141-143): attaches one collision shape and one nav-contributor tag.
  -/
  | insertColliderAndAffector (e : Entity) (c : Collider) : Command
deriving DecidableEq, Repr

/-! ## Collider extractor (`read_colliders`, main.rs:122-146) -/

/-- The data of one item of the query
`Query<(Entity, &Name, &Children), Added<Name>>`: an entity that has a `Name`
and a `Children` component and whose `Name` was added since the system last
ran. -/
structure QueryItem where
  entity : Entity
  name : String
  children : List Entity
deriving DecidableEq, Repr

/-- The body of the `read_colliders` loop for one query item.
`meshHandles e` is `mesh_handles.get(e).ok()` (the `Query<&Handle<Mesh>>`),
`meshes h` is `meshes.get(h)` on `Res<Assets<Mesh>>`, and `fromBevyMesh` is
the external `Collider::from_bevy_mesh(·, TriMesh)` keyed by the mesh asset.
Returns the commands the item queues, or the panic that aborts the system. -/
def processNode (meshHandles : Entity → Option MeshHandle)
    (meshes : MeshHandle → Option Unit)
    (fromBevyMesh : MeshHandle → Option Collider)
    (item : QueryItem) : Except Panic (List Command) :=
  if nameMatches item.name then
    let colliders := item.children.filterMap
      (fun e => (meshHandles e).map (fun h => (e, h)))
    match colliders.head? with
    | none => .error .emptyColliders
    | some (colliderEntity, colliderMeshHandle) =>
      match meshes colliderMeshHandle with
      | none => .error .meshNotLoaded
      | some _ =>
        match fromBevyMesh colliderMeshHandle with
        | none => .error .colliderBuildFailed
        | some c =>
          .ok [.despawnRecursive colliderEntity,
               .insertColliderAndAffector item.entity c]
  else
    .ok []

/-- The system `read_colliders` over the whole `added_name` query: processes the items in
order; a panic anywhere aborts the system, so no command of any item is
applied. -/
def read_colliders (meshHandles : Entity → Option MeshHandle)
    (meshes : MeshHandle → Option Unit)
    (fromBevyMesh : MeshHandle → Option Collider) :
    List QueryItem → Except Panic (List Command)
  | [] => .ok []
  | item :: rest => do
    let cmds ← processNode meshHandles meshes fromBevyMesh item
    let more ← read_colliders meshHandles meshes fromBevyMesh rest
    pure (cmds ++ more)

/-! ## The ECS world seen by the extractor -/

/-- Per-entity scene-node data: its `Name` component and its `Children`
component (`none` when the entity has no `Children` component at all). -/
structure NodeData where
  name : String
  children : Option (List Entity)
deriving DecidableEq, Repr

/-- The slice of the ECS world the extractor's query reads: the nodes, plus
Bevy's change-detection flag — `added e = true` iff `e`'s `Name` component was
added since `read_colliders` last ran.  (Modelled from the spec for the
framework part: Bevy sets the flag when the name is first assigned and clears
it after the system has observed it, so in steady state it is `false`.) -/
structure World where
  nodes : List (Entity × NodeData)
  added : Entity → Bool

/-- The items `Query<(Entity, &Name, &Children), Added<Name>>` yields on a
world: exactly the nodes that have a `Children` component and whose `Name` is
newly added.  A node without a `Children` component does not match the query
shape and is never enumerated. -/
def addedNameQuery (w : World) : List QueryItem :=
  w.nodes.filterMap fun p =>
    match p.2.children with
    | none => none
    | some cs => if w.added p.1 then some ⟨p.1, p.2.name, cs⟩ else none

/-! ## Applying the queued commands to the scene -/

/-- The scene state the extractor's commands mutate: which entities are alive,
the (at most one, by Bevy component semantics) `Collider` component of each
entity, and whether the entity carries the `NavMeshAffector` tag. -/
structure Scene where
  alive : List Entity
  collider : Entity → Option Collider
  affector : Entity → Bool

/-- Applies one command. `descendants e` enumerates the strict descendants of
`e` in the scene hierarchy (the entities `despawn_recursive` removes besides
`e` itself); it is a parameter because the hierarchy walk lives in Bevy. -/
def applyCommand (descendants : Entity → List Entity) (s : Scene) :
    Command → Scene
  | .despawnRecursive e =>
    { s with alive := s.alive.filter (fun x => !(x = e || x ∈ descendants e)) }
  | .insertColliderAndAffector e c =>
    { s with
      collider := fun x => if x = e then some c else s.collider x
      affector := fun x => x = e || s.affector x }

/-- Applies a command list left to right, the order `Commands` are flushed. -/
def applyCommands (descendants : Entity → List Entity) (s : Scene)
    (cmds : List Command) : Scene :=
  cmds.foldl (applyCommand descendants) s

/-! ## Path planner (`navigate`, main.rs:148-177) -/

/-- Translation of `path.clone().zip(path.skip(1))` (main.rs:167): the consecutive pairs of a
waypoint list, i.e. the drawn path segments. -/
def pathSegments (l : List Vec3) : List Line := l.zip (l.drop 1)

/-- The `navigate` system.  `guard` is the result of the single
`nav_mesh.get().read()` attempt (`none` = the read guard was not acquired);
`cameras` lists the translations of the `Transform`s matching
`Query<&Transform, With<UnrealCameraController>>` in iteration order;
`findPath` and `stringPull` are the external `oxidized_navigation` queries
`find_path` (taking the tiles, the settings, start, end and the optional
search-extension radius) and `perform_string_pulling_on_path`.  Returns the
segments handed to `lines.line_colored`, or the panic that aborts the system.
A `find_path` / string-pulling error is logged (`error!`) and nothing is
drawn. -/
def navigate {Tiles Settings PolyPath E₁ E₂ : Type}
    (settings : Settings) (guard : Option Tiles) (cameras : List Vec3)
    (findPath : Tiles → Settings → Vec3 → Vec3 → Option Int → Except E₁ PolyPath)
    (stringPull : Tiles → Vec3 → Vec3 → PolyPath → Except E₂ (List Vec3)) :
    Except Panic (List Line) :=
  match guard with
  | none => .ok []
  | some tiles =>
    let startPos : Vec3 := ⟨0, 0, 0⟩
    match cameras.head? with
    | none => .error .cameraMissing
    | some endPos =>
      match findPath tiles settings startPos endPos (some 5) with
      | .error _ => .ok []
      | .ok path =>
        match stringPull tiles startPos endPos path with
        | .error _ => .ok []
        | .ok stringPath =>
          .ok (pathSegments (startPos :: (stringPath ++ [endPos])))

/-! ## Debug visualizer (`draw_nav_mesh`, main.rs:179-198) -/

/-- A navigation-mesh polygon: vertex indices into the owning tile's vertex
list, ordered as a closed loop. -/
structure Poly where
  indices : List Nat
deriving DecidableEq, Repr

/-- A navigation-mesh tile: a vertex list and a polygon list. -/
structure Tile where
  vertices : List Vec3
  polygons : List Poly
deriving DecidableEq, Repr

/-- Indexing `tile.vertices[i]`: slice indexing, which panics when out of range. -/
def vget (vs : List Vec3) (i : Nat) : Except Panic Vec3 :=
  if h : i < vs.length then .ok (vs.get ⟨i, h⟩) else .error .indexOutOfBounds

/-- The inner polygon loop of `draw_nav_mesh` (main.rs:185-189): for each
`i in 0..indices.len()`, a segment from `vertices[indices[i]]` to
`vertices[indices[(i + 1) % indices.len()]]`. -/
def polyLines (vertices : List Vec3) (poly : Poly) : Except Panic (List Line) :=
  (List.range poly.indices.length).mapM fun i => do
    let a ← vget vertices (poly.indices.getD i 0)
    let b ← vget vertices (poly.indices.getD ((i + 1) % poly.indices.length) 0)
    pure (a, b)

/-- One tile's emission (main.rs:182-195): all polygon edge segments, then one
marker segment `(v, v + Vec3::Y)` per entry of the vertex list. -/
def drawTile (tile : Tile) : Except Panic (List Line) := do
  let edges ← tile.polygons.mapM (polyLines tile.vertices)
  pure (edges.flatten ++ tile.vertices.map (fun v => (v, v.add Vec3.unitY)))

/-- The `draw_nav_mesh` system: a single read-guard attempt (`none` = not
acquired, nothing drawn), then every tile's polygons and vertex markers. -/
def draw_nav_mesh (guard : Option (List Tile)) : Except Panic (List Line) :=
  match guard with
  | none => .ok []
  | some tiles => do
    let per ← tiles.mapM drawTile
    pure per.flatten

/-! ## Spec-side definitions (for comparison with the embedded code)

These two follow the words of the spec's Debug Visualizer contract — "emit one
line segment per polygon edge (closing the loop: last vertex connects to
first) and one short vertical segment per distinct vertex (visual marker)" —
and are compared against `drawTile` in the theorems below. -/

/-- The consecutive pairs of a vertex loop with the loop closed: for
`[w0, …, w_{n-1}]` the pairs `(w0, w1), …, (w_{n-2}, w_{n-1}), (w_{n-1}, w0)`.
-/
def closedLoopPairs {α : Type} : List α → List (α × α)
  | [] => []
  | w :: ws => (w :: ws).zip (ws ++ [w])

/-- Spec-side edge segments of a tile: per polygon, one segment per
consecutive vertex pair with the loop closed. -/
def specEdgeSegments (tile : Tile) : List Line :=
  tile.polygons.flatMap fun p =>
    closedLoopPairs (p.indices.map fun i => tile.vertices.getD i ⟨0, 0, 0⟩)

/-- Spec-side vertex markers of a tile: one short vertical segment per entry
of the vertex list. -/
def specVertexMarkers (tile : Tile) : List Line :=
  tile.vertices.map fun v => (v, v.add Vec3.unitY)

/-! ## Claims about the collider extractor -/

/-- C3: for every scene node whose name contains the case-insensitive
substring "collider" and that has exactly one mesh-bearing child, extraction
attaches exactly one `CollisionShape` (triangle-mesh collider) and exactly one
`NavMeshAffector` tag to that node, and the mesh-bearing child no longer
exists afterwards (despawned recursively).  The hypotheses say the mesh asset
is loaded and the external collider build succeeds, which §4.1 of the spec
assumes for this success path. -/
theorem extraction_single_mesh_child
    (mh : Entity → Option MeshHandle) (ms : MeshHandle → Option Unit)
    (fbm : MeshHandle → Option Collider) (item : QueryItem)
    (ce : Entity) (hd : MeshHandle) (c : Collider)
    (hname : nameMatches item.name = true)
    (hone : item.children.filterMap
      (fun e => (mh e).map (fun h => (e, h))) = [(ce, hd)])
    (hmesh : ms hd = some ()) (hbuild : fbm hd = some c) :
    processNode mh ms fbm item
      = .ok [.despawnRecursive ce, .insertColliderAndAffector item.entity c] ∧
    ∀ (descendants : Entity → List Entity) (s : Scene),
      ce ∉ (applyCommands descendants s
        [.despawnRecursive ce, .insertColliderAndAffector item.entity c]).alive ∧
      (applyCommands descendants s
        [.despawnRecursive ce, .insertColliderAndAffector item.entity c]).collider
          item.entity = some c ∧
      (applyCommands descendants s
        [.despawnRecursive ce, .insertColliderAndAffector item.entity c]).affector
          item.entity = true := by
  refine ⟨?_, ?_⟩
  · unfold processNode
    simp [hname, hone, hmesh, hbuild]
  · intro descendants s
    refine ⟨?_, ?_, ?_⟩
    · simp [applyCommands, applyCommand, List.mem_filter]
    · simp [applyCommands, applyCommand]
    · simp [applyCommands, applyCommand]

/-- Witness for `extraction_single_mesh_child` at a concrete node: entity 1 is
named "Collider" and has the single mesh-bearing child 2 whose mesh handle is
7. -/
theorem extraction_single_mesh_child_witness :
    processNode (fun e => if e = 2 then some 7 else none) (fun _ => some ())
      (fun h => some ⟨h⟩) ⟨1, "Collider", [2]⟩
      = .ok [.despawnRecursive 2, .insertColliderAndAffector 1 ⟨7⟩] ∧
    (2 : Entity) ∉ (applyCommands (fun _ => []) ⟨[1, 2], fun _ => none, fun _ => false⟩
      [.despawnRecursive 2, .insertColliderAndAffector 1 ⟨7⟩]).alive := by
  have h := extraction_single_mesh_child
    (fun e => if e = 2 then some 7 else none) (fun _ => some ())
    (fun h => some ⟨h⟩) ⟨1, "Collider", [2]⟩ 2 7 ⟨7⟩
    (by decide) (by decide) rfl rfl
  exact ⟨h.1, (h.2 (fun _ => []) ⟨[1, 2], fun _ => none, fun _ => false⟩).1⟩

/-- C8: for every collider-named node with two or more mesh-bearing children,
extraction uses only the first mesh-bearing child (in child-enumeration
order) as the collision-shape source and despawns only that child; every
other mesh-bearing child is left untouched (still alive, components
unchanged). -/
theorem extraction_uses_first_mesh_child
    (mh : Entity → Option MeshHandle) (ms : MeshHandle → Option Unit)
    (fbm : MeshHandle → Option Collider) (item : QueryItem)
    (ce₁ ce₂ : Entity) (h₁ h₂ : MeshHandle) (rest : List (Entity × MeshHandle))
    (c : Collider)
    (hname : nameMatches item.name = true)
    (hmany : item.children.filterMap
      (fun e => (mh e).map (fun h => (e, h))) = (ce₁, h₁) :: (ce₂, h₂) :: rest)
    (hmesh : ms h₁ = some ()) (hbuild : fbm h₁ = some c) :
    processNode mh ms fbm item
      = .ok [.despawnRecursive ce₁, .insertColliderAndAffector item.entity c] ∧
    ∀ (descendants : Entity → List Entity) (s : Scene),
      ce₂ ≠ ce₁ → ce₂ ∉ descendants ce₁ → ce₂ ≠ item.entity →
      ((ce₂ ∈ s.alive → ce₂ ∈ (applyCommands descendants s
          [.despawnRecursive ce₁, .insertColliderAndAffector item.entity c]).alive) ∧
        (applyCommands descendants s
          [.despawnRecursive ce₁, .insertColliderAndAffector item.entity c]).collider
            ce₂ = s.collider ce₂ ∧
        (applyCommands descendants s
          [.despawnRecursive ce₁, .insertColliderAndAffector item.entity c]).affector
            ce₂ = s.affector ce₂) := by
  refine ⟨?_, ?_⟩
  · unfold processNode
    simp [hname, hmany, hmesh, hbuild]
  · intro descendants s hne hdesc hnp
    refine ⟨?_, ?_, ?_⟩
    · intro halive
      simp [applyCommands, applyCommand, List.mem_filter, halive, hne, hdesc]
    · simp [applyCommands, applyCommand, hnp]
    · simp [applyCommands, applyCommand, hnp]

/-- Witness for `extraction_uses_first_mesh_child` at a concrete node: entity
1 is named "wall-collider" with mesh-bearing children 2 (handle 7, used) and 3
(handle 8, untouched). -/
theorem extraction_uses_first_mesh_child_witness :
    processNode (fun e => if e = 2 then some 7 else if e = 3 then some 8 else none)
      (fun _ => some ()) (fun h => some ⟨h⟩) ⟨1, "wall-collider", [2, 3]⟩
      = .ok [.despawnRecursive 2, .insertColliderAndAffector 1 ⟨7⟩] ∧
    (3 : Entity) ∈ (applyCommands (fun _ => []) ⟨[1, 2, 3], fun _ => none, fun _ => false⟩
      [.despawnRecursive 2, .insertColliderAndAffector 1 ⟨7⟩]).alive := by
  have h := extraction_uses_first_mesh_child
    (fun e => if e = 2 then some 7 else if e = 3 then some 8 else none)
    (fun _ => some ()) (fun h => some ⟨h⟩) ⟨1, "wall-collider", [2, 3]⟩
    2 3 7 8 [] ⟨7⟩ (by decide) (by decide) rfl rfl
  refine ⟨h.1, ?_⟩
  exact (h.2 (fun _ => []) ⟨[1, 2, 3], fun _ => none, fun _ => false⟩
    (by decide) (by decide) (by decide)).1 (by decide)

/-- C4: extraction is idempotent per node.  With Bevy's change-detection flag
modelled in `World.added`, a steady-state frame (no entity's `Name` newly
assigned — in particular every already-processed node with its name
unchanged) yields an empty `Added<Name>` query, and running `read_colliders`
again is a no-op: it queues no command and panics on nothing. -/
theorem extraction_steady_state_noop (w : World)
    (mh : Entity → Option MeshHandle) (ms : MeshHandle → Option Unit)
    (fbm : MeshHandle → Option Collider)
    (h : ∀ e, w.added e = false) :
    addedNameQuery w = [] ∧
    read_colliders mh ms fbm (addedNameQuery w) = .ok [] := by
  have hq : addedNameQuery w = [] := by
    unfold addedNameQuery
    rw [List.filterMap_eq_nil_iff]
    intro p _
    cases hc : p.2.children with
    | none => rfl
    | some cs => simp [hc, h p.1]
  exact ⟨hq, by rw [hq]; rfl⟩

/-- Witness for `extraction_steady_state_noop`: a world holding one
already-processed collider node (entity 0, child 1) whose change-detection
flag has been cleared. -/
theorem extraction_steady_state_noop_witness :
    addedNameQuery ⟨[(0, ⟨"Collider", some [1]⟩)], fun _ => false⟩ = [] ∧
    read_colliders (fun _ => some 7) (fun _ => some ()) (fun h => some ⟨h⟩)
      (addedNameQuery ⟨[(0, ⟨"Collider", some [1]⟩)], fun _ => false⟩) = .ok [] :=
  extraction_steady_state_noop ⟨[(0, ⟨"Collider", some [1]⟩)], fun _ => false⟩
    (fun _ => some 7) (fun _ => some ()) (fun h => some ⟨h⟩) (fun _ => rfl)

/-- C9: a scene node whose name contains "collider" (case-insensitively) but
that has no `Children` component at all does not match the shape of the query
`Query<(Entity, &Name, &Children), Added<Name>>`, so extraction silently
skips it: the query enumerates exactly the same items as for the world
without that node, no error is raised and no scene mutation occurs — distinct
from the zero-mesh-bearing-children case. -/
theorem childless_collider_node_skipped
    (l₁ l₂ : List (Entity × NodeData)) (e : Entity) (d : NodeData)
    (added : Entity → Bool)
    (mh : Entity → Option MeshHandle) (ms : MeshHandle → Option Unit)
    (fbm : MeshHandle → Option Collider)
    (hname : nameMatches d.name = true) (hnoch : d.children = none) :
    addedNameQuery ⟨l₁ ++ (e, d) :: l₂, added⟩ = addedNameQuery ⟨l₁ ++ l₂, added⟩ ∧
    read_colliders mh ms fbm (addedNameQuery ⟨l₁ ++ (e, d) :: l₂, added⟩)
      = read_colliders mh ms fbm (addedNameQuery ⟨l₁ ++ l₂, added⟩) := by
  have hq : addedNameQuery ⟨l₁ ++ (e, d) :: l₂, added⟩
      = addedNameQuery ⟨l₁ ++ l₂, added⟩ := by
    unfold addedNameQuery
    simp only [List.filterMap_append, List.filterMap_cons, hnoch]
  exact ⟨hq, by rw [hq]⟩

/-- Witness for `childless_collider_node_skipped`: entity 5, named
"collider", has no `Children` component; the world also holds an unrelated
node 0. -/
theorem childless_collider_node_skipped_witness :
    addedNameQuery ⟨[(0, ⟨"Light", some [9]⟩)] ++ (5, ⟨"collider", none⟩) :: [], fun _ => true⟩
      = addedNameQuery ⟨[(0, ⟨"Light", some [9]⟩)] ++ [], fun _ => true⟩ ∧
    read_colliders (fun _ => none) (fun _ => some ()) (fun h => some ⟨h⟩)
      (addedNameQuery ⟨[(0, ⟨"Light", some [9]⟩)] ++ (5, ⟨"collider", none⟩) :: [], fun _ => true⟩)
      = read_colliders (fun _ => none) (fun _ => some ()) (fun h => some ⟨h⟩)
        (addedNameQuery ⟨[(0, ⟨"Light", some [9]⟩)] ++ [], fun _ => true⟩) :=
  childless_collider_node_skipped [(0, ⟨"Light", some [9]⟩)] [] 5
    ⟨"collider", none⟩ (fun _ => true) (fun _ => none) (fun _ => some ())
    (fun h => some ⟨h⟩) (by decide) rfl

/-- C1 counterexample: entity 1 is named "collider" and has the child 2,
which carries no mesh; entity 3 is a well-formed collider node.  The code
does not fail with a recoverable `MissingColliderGeometry` error that leaves
the rest of the scene processing intact: `colliders.first().unwrap()` panics,
aborting the whole system, so even the well-formed node 3 — which on its own
extracts fine, as the second conjunct shows — is not processed. -/
theorem extraction_missing_geometry_counterexample :
    read_colliders (fun e => if e = 4 then some 9 else none) (fun _ => some ())
      (fun h => some ⟨h⟩)
      [⟨1, "collider", [2]⟩, ⟨3, "box_collider", [4]⟩]
      = .error Panic.emptyColliders ∧
    processNode (fun e => if e = 4 then some 9 else none) (fun _ => some ())
      (fun h => some ⟨h⟩) ⟨3, "box_collider", [4]⟩
      = .ok [.despawnRecursive 4, .insertColliderAndAffector 3 ⟨9⟩] := by
  exact ⟨rfl, rfl⟩

/-- C1 amended: for every scene node whose name contains the case-insensitive
substring "collider" and that has children but zero mesh-bearing children,
extraction panics (`colliders.first().unwrap()` on the empty list).  The
panic aborts the system before any queued command is applied, so no despawn
happens and no component is attached — but the failure is a process panic
that also aborts the processing of every other queried node that frame, not a
recoverable `MissingColliderGeometry` error. -/
theorem extraction_no_mesh_child_panics
    (mh : Entity → Option MeshHandle) (ms : MeshHandle → Option Unit)
    (fbm : MeshHandle → Option Collider) (item : QueryItem)
    (hname : nameMatches item.name = true)
    (hnone : item.children.filterMap
      (fun e => (mh e).map (fun h => (e, h))) = []) :
    processNode mh ms fbm item = .error Panic.emptyColliders ∧
    ∀ rest, read_colliders mh ms fbm (item :: rest)
      = .error Panic.emptyColliders := by
  have hp : processNode mh ms fbm item = .error Panic.emptyColliders := by
    unfold processNode
    simp [hname, hnone]
  refine ⟨hp, fun rest => ?_⟩
  show (do
    let cmds ← processNode mh ms fbm item
    let more ← read_colliders mh ms fbm rest
    pure (cmds ++ more)) = Except.error Panic.emptyColliders
  rw [hp]
  rfl

/-- Witness for `extraction_no_mesh_child_panics` at entity 1, named
"collider", whose only child 2 bears no mesh. -/
theorem extraction_no_mesh_child_panics_witness :
    processNode (fun _ => none) (fun _ => some ()) (fun h => some ⟨h⟩)
      ⟨1, "collider", [2]⟩ = .error Panic.emptyColliders ∧
    read_colliders (fun _ => none) (fun _ => some ()) (fun h => some ⟨h⟩)
      [⟨1, "collider", [2]⟩] = .error Panic.emptyColliders := by
  have h := extraction_no_mesh_child_panics (fun _ => none) (fun _ => some ())
    (fun h => some ⟨h⟩) ⟨1, "collider", [2]⟩ (by decide) rfl
  exact ⟨h.1, h.2 []⟩

/-- C2 counterexample: operations of the navigation core do panic.  Entity 5,
named "Collider", has a single child 6 without mesh data, and the extractor
panics on it (`colliders.first().unwrap()`); the planner panics
(`camera_transform.iter().next().unwrap()`) when the read guard is held but
no camera entity exists. -/
theorem nav_core_panics_counterexample :
    read_colliders (fun _ => none) (fun _ => some ()) (fun h => some ⟨h⟩)
      [⟨5, "Collider", [6]⟩] = .error Panic.emptyColliders ∧
    navigate () (some ()) [] (fun _ _ _ _ _ => (.ok () : Except Unit Unit))
      (fun _ _ _ _ => (.ok [] : Except Unit (List Vec3)))
      = .error Panic.cameraMissing := by
  exact ⟨rfl, rfl⟩

/-- C2 amended: failed pathfinding, failed string pulling and a failed
read-guard acquisition all degrade to "nothing drawn this frame" without
aborting (conjuncts 1-3), but not every failure is non-fatal: extraction
panics on a collider node with no mesh-bearing child, on an unloaded mesh
asset and on a failed collider build, and the planner panics when no camera
entity exists while the guard is held (conjuncts 4-7). -/
theorem nav_core_failure_modes :
    (∀ (Tiles Settings PolyPath E₁ E₂ : Type) (settings : Settings)
      (cams : List Vec3)
      (fp : Tiles → Settings → Vec3 → Vec3 → Option Int → Except E₁ PolyPath)
      (sp : Tiles → Vec3 → Vec3 → PolyPath → Except E₂ (List Vec3)),
      navigate settings none cams fp sp = .ok [] ∧ draw_nav_mesh none = .ok []) ∧
    (∀ (Tiles Settings PolyPath E₁ E₂ : Type) (settings : Settings)
      (tiles : Tiles) (c : Vec3) (cs : List Vec3)
      (fp : Tiles → Settings → Vec3 → Vec3 → Option Int → Except E₁ PolyPath)
      (sp : Tiles → Vec3 → Vec3 → PolyPath → Except E₂ (List Vec3)) (e : E₁),
      fp tiles settings ⟨0, 0, 0⟩ c (some 5) = .error e →
      navigate settings (some tiles) (c :: cs) fp sp = .ok []) ∧
    (∀ (Tiles Settings PolyPath E₁ E₂ : Type) (settings : Settings)
      (tiles : Tiles) (c : Vec3) (cs : List Vec3)
      (fp : Tiles → Settings → Vec3 → Vec3 → Option Int → Except E₁ PolyPath)
      (sp : Tiles → Vec3 → Vec3 → PolyPath → Except E₂ (List Vec3))
      (pp : PolyPath) (e : E₂),
      fp tiles settings ⟨0, 0, 0⟩ c (some 5) = .ok pp →
      sp tiles ⟨0, 0, 0⟩ c pp = .error e →
      navigate settings (some tiles) (c :: cs) fp sp = .ok []) ∧
    (∀ (mh : Entity → Option MeshHandle) (ms : MeshHandle → Option Unit)
      (fbm : MeshHandle → Option Collider) (item : QueryItem),
      nameMatches item.name = true →
      item.children.filterMap (fun e => (mh e).map (fun h => (e, h))) = [] →
      processNode mh ms fbm item = .error Panic.emptyColliders) ∧
    (∀ (mh : Entity → Option MeshHandle) (ms : MeshHandle → Option Unit)
      (fbm : MeshHandle → Option Collider) (item : QueryItem)
      (ce : Entity) (hd : MeshHandle) (tail : List (Entity × MeshHandle)),
      nameMatches item.name = true →
      item.children.filterMap (fun e => (mh e).map (fun h => (e, h)))
        = (ce, hd) :: tail →
      ms hd = none →
      processNode mh ms fbm item = .error Panic.meshNotLoaded) ∧
    (∀ (mh : Entity → Option MeshHandle) (ms : MeshHandle → Option Unit)
      (fbm : MeshHandle → Option Collider) (item : QueryItem)
      (ce : Entity) (hd : MeshHandle) (tail : List (Entity × MeshHandle)),
      nameMatches item.name = true →
      item.children.filterMap (fun e => (mh e).map (fun h => (e, h)))
        = (ce, hd) :: tail →
      ms hd = some () → fbm hd = none →
      processNode mh ms fbm item = .error Panic.colliderBuildFailed) ∧
    (∀ (Tiles Settings PolyPath E₁ E₂ : Type) (settings : Settings)
      (tiles : Tiles)
      (fp : Tiles → Settings → Vec3 → Vec3 → Option Int → Except E₁ PolyPath)
      (sp : Tiles → Vec3 → Vec3 → PolyPath → Except E₂ (List Vec3)),
      navigate settings (some tiles) [] fp sp = .error Panic.cameraMissing) := by
  refine ⟨?_, ?_, ?_, ?_, ?_, ?_, ?_⟩
  · intro _ _ _ _ _ _ _ _ _
    exact ⟨rfl, rfl⟩
  · intro _ _ _ _ _ settings tiles c cs fp sp e hfp
    unfold navigate
    simp [hfp]
  · intro _ _ _ _ _ settings tiles c cs fp sp pp e hfp hsp
    unfold navigate
    simp [hfp, hsp]
  · intro mh ms fbm item hname hnone
    unfold processNode
    simp [hname, hnone]
  · intro mh ms fbm item ce hd tail hname hlist hmesh
    unfold processNode
    simp [hname, hlist, hmesh]
  · intro mh ms fbm item ce hd tail hname hlist hmesh hbuild
    unfold processNode
    simp [hname, hlist, hmesh, hbuild]
  · intro _ _ _ _ _ settings tiles fp sp
    rfl

/-- Witness for `nav_core_failure_modes`, instantiating every conjunct at
concrete inputs: a failing planner query draws nothing, while a collider node
(entity 1, child 2) with no mesh-bearing child makes extraction panic. -/
theorem nav_core_failure_modes_witness :
    navigate () (some ()) [⟨1, 2, 3⟩]
      (fun _ _ _ _ _ => (.error () : Except Unit Unit))
      (fun _ _ _ _ => (.ok [] : Except Unit (List Vec3))) = .ok [] ∧
    processNode (fun _ => none) (fun _ => some ()) (fun h => some ⟨h⟩)
      ⟨1, "road collider", [2]⟩ = .error Panic.emptyColliders ∧
    navigate () (some ()) [] (fun _ _ _ _ _ => (.ok () : Except Unit Unit))
      (fun _ _ _ _ => (.ok [] : Except Unit (List Vec3)))
      = .error Panic.cameraMissing := by
  refine ⟨?_, ?_, ?_⟩
  · exact nav_core_failure_modes.2.1 Unit Unit Unit Unit Unit () () ⟨1, 2, 3⟩ []
      (fun _ _ _ _ _ => .error ()) (fun _ _ _ _ => .ok []) () rfl
  · exact nav_core_failure_modes.2.2.2.1 (fun _ => none) (fun _ => some ())
      (fun h => some ⟨h⟩) ⟨1, "road collider", [2]⟩ (by decide) rfl
  · exact nav_core_failure_modes.2.2.2.2.2.2 Unit Unit Unit Unit Unit () ()
      (fun _ _ _ _ _ => .ok ()) (fun _ _ _ _ => .ok [])

/-! ## Claims about the per-frame readers -/

/-- C5: a reader whose single `nav_mesh.get().read()` attempt fails skips its
work for the frame: both the path planner and the debug visualizer emit
nothing and mutate nothing.  The embedded readers make exactly one
acquisition attempt per frame — by construction there is no blocking loop,
timeout or retry. -/
theorem readers_skip_on_guard_failure
    (Tiles Settings PolyPath E₁ E₂ : Type) (settings : Settings)
    (cams : List Vec3)
    (fp : Tiles → Settings → Vec3 → Vec3 → Option Int → Except E₁ PolyPath)
    (sp : Tiles → Vec3 → Vec3 → PolyPath → Except E₂ (List Vec3)) :
    navigate settings none cams fp sp = .ok [] ∧
    draw_nav_mesh none = .ok [] :=
  ⟨rfl, rfl⟩

/-- The drawn segments of `start :: waypoints ++ [end]` are the consecutive
pairs pairing each point with its successor. -/
lemma pathSegments_anchored (s : Vec3) (wps : List Vec3) (c : Vec3) :
    pathSegments (s :: (wps ++ [c])) = (s :: wps).zip (wps ++ [c]) := by
  unfold pathSegments
  have hd : List.drop 1 (s :: (wps ++ [c])) = wps ++ [c] := rfl
  rw [hd]
  have h2 : s :: (wps ++ [c]) = (s :: wps) ++ [c] := by simp
  rw [h2]
  calc ((s :: wps) ++ [c]).zip (wps ++ [c])
      = ((s :: wps) ++ [c]).zip ((wps ++ [c]) ++ []) := by rw [List.append_nil]
    _ = (s :: wps).zip (wps ++ [c]) ++ [c].zip [] := List.zip_append (by simp)
    _ = (s :: wps).zip (wps ++ [c]) := by simp

/-- C7: for every successfully smoothed path of `k` waypoints, `navigate`
emits the consecutive pairs of `start :: waypoints ++ [end]` — a segment from
the fixed start anchor `(0, 0, 0)` to the first waypoint, one segment per
consecutive waypoint pair, and a segment from the last waypoint to the live
camera end anchor — `k + 1` segments in total, and the single direct
start-to-end segment when `k = 0`. -/
theorem navigate_success_segments
    (Tiles Settings PolyPath E₁ E₂ : Type) (settings : Settings)
    (tiles : Tiles) (c : Vec3) (cs : List Vec3)
    (fp : Tiles → Settings → Vec3 → Vec3 → Option Int → Except E₁ PolyPath)
    (sp : Tiles → Vec3 → Vec3 → PolyPath → Except E₂ (List Vec3))
    (pp : PolyPath) (wps : List Vec3)
    (hfp : fp tiles settings ⟨0, 0, 0⟩ c (some 5) = .ok pp)
    (hsp : sp tiles ⟨0, 0, 0⟩ c pp = .ok wps) :
    navigate settings (some tiles) (c :: cs) fp sp
      = .ok (((⟨0, 0, 0⟩ : Vec3) :: wps).zip (wps ++ [c])) ∧
    (((⟨0, 0, 0⟩ : Vec3) :: wps).zip (wps ++ [c])).length = wps.length + 1 ∧
    (wps = [] →
      ((⟨0, 0, 0⟩ : Vec3) :: wps).zip (wps ++ [c]) = [(⟨0, 0, 0⟩, c)]) := by
  refine ⟨?_, ?_, ?_⟩
  · unfold navigate
    simp only [List.head?_cons, hfp, hsp]
    rw [pathSegments_anchored]
  · simp
  · intro h
    subst h
    rfl

/-- Witness for `navigate_success_segments` with the one-waypoint smoothed
path `[(1, 0, 1)]` and the camera at `(2, 0, 2)`: two segments are drawn. -/
theorem navigate_success_segments_witness :
    navigate () (some ()) [⟨2, 0, 2⟩]
      (fun _ _ _ _ _ => (.ok () : Except Unit Unit))
      (fun _ _ _ _ => (.ok [⟨1, 0, 1⟩] : Except Unit (List Vec3)))
      = .ok [(⟨0, 0, 0⟩, ⟨1, 0, 1⟩), (⟨1, 0, 1⟩, ⟨2, 0, 2⟩)] := by
  have h := navigate_success_segments Unit Unit Unit Unit Unit () () ⟨2, 0, 2⟩ []
    (fun _ _ _ _ _ => .ok ()) (fun _ _ _ _ => .ok [⟨1, 0, 1⟩]) () [⟨1, 0, 1⟩]
    rfl rfl
  exact h.1

/-- C10: the per-frame pathfinding system `navigate` needs at least one
camera entity whenever the read guard is acquired — without one it panics on
`camera_transform.iter().next().unwrap()` (first conjunct), and with one it
never panics (second conjunct).  Its query depends on `find_path` only
through the call at the fixed start position `(0, 0, 0)`, the live camera
translation and the search extension radius `Some(5.)` (third conjunct). -/
theorem navigate_camera_precondition :
    (∀ (Tiles Settings PolyPath E₁ E₂ : Type) (settings : Settings)
      (tiles : Tiles)
      (fp : Tiles → Settings → Vec3 → Vec3 → Option Int → Except E₁ PolyPath)
      (sp : Tiles → Vec3 → Vec3 → PolyPath → Except E₂ (List Vec3)),
      navigate settings (some tiles) [] fp sp = .error Panic.cameraMissing) ∧
    (∀ (Tiles Settings PolyPath E₁ E₂ : Type) (settings : Settings)
      (guard : Option Tiles) (cams : List Vec3)
      (fp : Tiles → Settings → Vec3 → Vec3 → Option Int → Except E₁ PolyPath)
      (sp : Tiles → Vec3 → Vec3 → PolyPath → Except E₂ (List Vec3)),
      cams ≠ [] → ∃ out, navigate settings guard cams fp sp = .ok out) ∧
    (∀ (Tiles Settings PolyPath E₁ E₂ : Type) (settings : Settings)
      (tiles : Tiles) (c : Vec3) (cs : List Vec3)
      (fp fp' : Tiles → Settings → Vec3 → Vec3 → Option Int → Except E₁ PolyPath)
      (sp : Tiles → Vec3 → Vec3 → PolyPath → Except E₂ (List Vec3)),
      (∀ t : Tiles, fp t settings ⟨0, 0, 0⟩ c (some 5)
        = fp' t settings ⟨0, 0, 0⟩ c (some 5)) →
      navigate settings (some tiles) (c :: cs) fp sp
        = navigate settings (some tiles) (c :: cs) fp' sp) := by
  refine ⟨fun _ _ _ _ _ _ _ _ _ => rfl, ?_, ?_⟩
  · intro _ _ _ _ _ settings guard cams fp sp hne
    cases guard with
    | none => exact ⟨[], rfl⟩
    | some tiles =>
      cases cams with
      | nil => exact absurd rfl hne
      | cons c cs =>
        cases hfp : fp tiles settings ⟨0, 0, 0⟩ c (some 5) with
        | error e =>
          refine ⟨[], ?_⟩
          unfold navigate
          simp [hfp]
        | ok pp =>
          cases hsp : sp tiles ⟨0, 0, 0⟩ c pp with
          | error e =>
            refine ⟨[], ?_⟩
            unfold navigate
            simp [hfp, hsp]
          | ok wps =>
            refine ⟨pathSegments (⟨0, 0, 0⟩ :: (wps ++ [c])), ?_⟩
            unfold navigate
            simp [hfp, hsp]
  · intro _ _ _ _ _ settings tiles c cs fp fp' sp hagree
    unfold navigate
    simp only [List.head?_cons]
    rw [hagree tiles]

/-- Witness for `navigate_camera_precondition`: with the read guard held and
no camera, `navigate` panics; with a camera at `(3, 4, 5)` it completes; and
two planners agreeing at the fixed query arguments draw the same lines. -/
theorem navigate_camera_precondition_witness :
    navigate () (some ()) [] (fun _ _ _ _ _ => (.ok () : Except Unit Unit))
      (fun _ _ _ _ => (.ok [] : Except Unit (List Vec3)))
      = .error Panic.cameraMissing ∧
    (∃ out, navigate () (some ()) [⟨3, 4, 5⟩]
      (fun _ _ _ _ _ => (.ok () : Except Unit Unit))
      (fun _ _ _ _ => (.ok [] : Except Unit (List Vec3))) = .ok out) ∧
    navigate () (some ()) [⟨3, 4, 5⟩]
      (fun _ _ _ _ _ => (.ok () : Except Unit Unit))
      (fun _ _ _ _ => (.ok [] : Except Unit (List Vec3)))
      = navigate () (some ()) [⟨3, 4, 5⟩]
        (fun _ _ s _ _ => (if s = ⟨0, 0, 0⟩ then .ok () else .ok () : Except Unit Unit))
        (fun _ _ _ _ => (.ok [] : Except Unit (List Vec3))) := by
  refine ⟨?_, ?_, ?_⟩
  · exact navigate_camera_precondition.1 Unit Unit Unit Unit Unit () ()
      (fun _ _ _ _ _ => .ok ()) (fun _ _ _ _ => .ok [])
  · exact navigate_camera_precondition.2.1 Unit Unit Unit Unit Unit ()
      (some ()) [⟨3, 4, 5⟩] (fun _ _ _ _ _ => .ok ()) (fun _ _ _ _ => .ok [])
      (by simp)
  · exact navigate_camera_precondition.2.2 Unit Unit Unit Unit Unit () ()
      ⟨3, 4, 5⟩ [] (fun _ _ _ _ _ => .ok ())
      (fun _ _ s _ _ => if s = ⟨0, 0, 0⟩ then .ok () else .ok ())
      (fun _ _ _ _ => .ok []) (fun _ => by simp)

/-! ## Claims about the debug visualizer -/

/-- Indexing succeeds below the length, returning the `getD` value. -/
lemma vget_ok {vs : List Vec3} {i : Nat} (h : i < vs.length) :
    vget vs i = .ok (vs.getD i ⟨0, 0, 0⟩) := by
  unfold vget
  rw [dif_pos h, List.getD_eq_getElem vs _ h]
  rfl

/-- A monadic map over `Except` whose body succeeds pointwise succeeds with
the pointwise results. -/
lemma mapM_eq_ok {α β ε : Type} (f : α → Except ε β) (g : α → β) :
    ∀ l : List α, (∀ a ∈ l, f a = .ok (g a)) → l.mapM f = .ok (l.map g) := by
  intro l
  induction l with
  | nil => intro _; rfl
  | cons a t ih =>
    intro h
    rw [List.mapM_cons, h a (List.mem_cons_self a t),
      ih (fun x hx => h x (List.mem_cons_of_mem a hx))]
    rfl

/-- Closing the loop pairs every vertex with a successor, so the pair count
equals the vertex count. -/
lemma closedLoopPairs_length {α : Type} (l : List α) :
    (closedLoopPairs l).length = l.length := by
  cases l with
  | nil => rfl
  | cons w ws => simp [closedLoopPairs]

/-- The loop of `draw_nav_mesh` over `i in 0..len` with the wrap-around index
`(i + 1) % len` enumerates exactly the consecutive pairs of the vertex loop,
closed. -/
lemma range_map_closedLoop {α : Type} (d : α) (ws : List α) :
    (List.range ws.length).map
      (fun i => (ws.getD i d, ws.getD ((i + 1) % ws.length) d))
      = closedLoopPairs ws := by
  cases ws with
  | nil => rfl
  | cons w rest =>
    apply List.ext_getElem
    · simp [closedLoopPairs]
    · intro i h₁ h₂
      have hi : i < rest.length + 1 := by simpa using h₁
      have hb₁ : i < (w :: rest).length := by simpa using hi
      have hb₂ : i < (rest ++ [w]).length := by simp; omega
      simp only [List.getElem_map, List.getElem_range, closedLoopPairs,
        List.getElem_zip]
      have hfst : (w :: rest).getD i d = (w :: rest).get ⟨i, hb₁⟩ := by
        rw [List.get_eq_getElem]
        exact List.getD_eq_getElem _ _ hb₁
      have hsnd : (w :: rest).getD ((i + 1) % (w :: rest).length) d
          = (rest ++ [w]).get ⟨i, hb₂⟩ := by
        rw [List.get_eq_getElem]
        simp only [List.length_cons]
        by_cases hlt : i + 1 < rest.length + 1
        · rw [Nat.mod_eq_of_lt hlt, List.getD_eq_getElem _ _ (by simpa using hlt),
            List.getElem_cons_succ, List.getElem_append_left (by omega)]
        · have hieq : i = rest.length := by omega
          rw [show (i + 1) % (rest.length + 1) = 0 from by rw [hieq]; exact Nat.mod_self _]
          show w = (rest ++ [w])[i]
          rw [List.getElem_append_right (by omega)]
          simp [hieq]
      rw [hfst, hsnd]
      rfl

/-- With every polygon index in range, the inner loop of `draw_nav_mesh`
succeeds and emits the closed loop of the polygon's vertices. -/
lemma polyLines_ok (vertices : List Vec3) (p : Poly)
    (hwf : ∀ i ∈ p.indices, i < vertices.length) :
    polyLines vertices p
      = .ok (closedLoopPairs (p.indices.map fun i => vertices.getD i ⟨0, 0, 0⟩)) := by
  unfold polyLines
  rw [mapM_eq_ok _
    (fun i => (vertices.getD (p.indices.getD i 0) ⟨0, 0, 0⟩,
      vertices.getD (p.indices.getD ((i + 1) % p.indices.length) 0) ⟨0, 0, 0⟩))]
  · congr 1
    have hlen : (p.indices.map fun i => vertices.getD i ⟨0, 0, 0⟩).length
        = p.indices.length := by simp
    rw [← range_map_closedLoop (⟨0, 0, 0⟩ : Vec3)
      (p.indices.map fun i => vertices.getD i ⟨0, 0, 0⟩), hlen]
    apply List.map_congr_left
    intro i hi
    have hi' : i < p.indices.length := List.mem_range.mp hi
    have hmod : (i + 1) % p.indices.length < p.indices.length :=
      Nat.mod_lt _ (by omega)
    have e₁ : ∀ j, j < p.indices.length →
        (p.indices.map fun k => vertices.getD k ⟨0, 0, 0⟩).getD j ⟨0, 0, 0⟩
          = vertices.getD (p.indices.getD j 0) ⟨0, 0, 0⟩ := by
      intro j hj
      rw [List.getD_eq_getElem _ _ (by simpa using hj), List.getElem_map,
        List.getD_eq_getElem _ _ hj]
    rw [e₁ i hi', e₁ _ hmod]
  · intro i hi
    have hi' : i < p.indices.length := List.mem_range.mp hi
    have hmod : (i + 1) % p.indices.length < p.indices.length :=
      Nat.mod_lt _ (by omega)
    have hmem : ∀ j, j < p.indices.length → p.indices.getD j 0 ∈ p.indices := by
      intro j hj
      rw [List.getD_eq_getElem _ _ hj]
      exact List.getElem_mem hj
    have e₁ := vget_ok (hwf _ (hmem i hi'))
    have e₂ := vget_ok (hwf _ (hmem _ hmod))
    simp only [e₁, e₂]
    rfl

/-- C6 counterexample: a tile whose vertex list holds the same vertex twice
(and no polygon).  The visualizer emits one marker per vertex-list entry —
two segments here — not one per distinct vertex, of which there is exactly
one. -/
theorem marker_per_entry_counterexample :
    draw_nav_mesh (some [⟨[⟨0, 0, 0⟩, ⟨0, 0, 0⟩], []⟩])
      = .ok [(⟨0, 0, 0⟩, ⟨0, 1, 0⟩), (⟨0, 0, 0⟩, ⟨0, 1, 0⟩)] ∧
    ([⟨0, 0, 0⟩, ⟨0, 0, 0⟩] : List Vec3).dedup = [⟨0, 0, 0⟩] := by
  exact ⟨rfl, by decide⟩

/-- C6 amended: for every tile whose polygons only reference in-range vertex
indices, the visualizer emits, per polygon with vertex list `[v0, …, v_{n-1}]`,
exactly `n` edge segments — one per consecutive pair with the loop closed —
followed by exactly one short vertical marker segment per entry of the tile's
vertex list (which is one per distinct vertex exactly when that list has no
duplicates). -/
theorem draw_nav_mesh_tile_segments (tile : Tile)
    (hwf : ∀ p ∈ tile.polygons, ∀ i ∈ p.indices, i < tile.vertices.length) :
    drawTile tile = .ok (specEdgeSegments tile ++ specVertexMarkers tile) ∧
    (specVertexMarkers tile).length = tile.vertices.length ∧
    (∀ p ∈ tile.polygons,
      (closedLoopPairs (p.indices.map fun i => tile.vertices.getD i ⟨0, 0, 0⟩)).length
        = p.indices.length) ∧
    (tile.vertices.Nodup →
      (specVertexMarkers tile).length = tile.vertices.dedup.length) := by
  refine ⟨?_, by simp [specVertexMarkers], ?_, ?_⟩
  · unfold drawTile
    rw [mapM_eq_ok _
      (fun p => closedLoopPairs (p.indices.map fun i => tile.vertices.getD i ⟨0, 0, 0⟩))
      tile.polygons (fun p hp => polyLines_ok tile.vertices p (hwf p hp))]
    show Except.ok _ = _
    congr 1
  · intro p _
    rw [closedLoopPairs_length]
    simp
  · intro hnd
    simp [specVertexMarkers, List.dedup_eq_self.mpr hnd]

/-- Witness for `draw_nav_mesh_tile_segments` at a concrete one-triangle
tile: three closed-loop edge segments and three vertex markers. -/
theorem draw_nav_mesh_tile_segments_witness :
    drawTile ⟨[⟨0, 0, 0⟩, ⟨4, 0, 0⟩, ⟨0, 0, 4⟩], [⟨[0, 1, 2]⟩]⟩
      = .ok (specEdgeSegments ⟨[⟨0, 0, 0⟩, ⟨4, 0, 0⟩, ⟨0, 0, 4⟩], [⟨[0, 1, 2]⟩]⟩
          ++ specVertexMarkers ⟨[⟨0, 0, 0⟩, ⟨4, 0, 0⟩, ⟨0, 0, 4⟩], [⟨[0, 1, 2]⟩]⟩) ∧
    (specVertexMarkers ⟨[⟨0, 0, 0⟩, ⟨4, 0, 0⟩, ⟨0, 0, 4⟩], [⟨[0, 1, 2]⟩]⟩).length = 3 := by
  have h := draw_nav_mesh_tile_segments
    ⟨[⟨0, 0, 0⟩, ⟨4, 0, 0⟩, ⟨0, 0, 4⟩], [⟨[0, 1, 2]⟩]⟩ (by decide)
  exact ⟨h.1, h.2.1⟩

end Nav
